import Mathlib

/-!
Verification of the y+ wall-distance estimation tool (src/main.py).

The source is a small pipeline of pure numeric functions.  We embed it
shallowly over the exact reals: Python `math.sqrt` becomes `Real.sqrt`,
`math.log10` becomes `Real.logb 10`, `math.log` becomes `Real.log`,
float power with a real exponent becomes `Real.rpow`, `math.ceil` becomes
`Int.ceil`, and a raised `ValueError` becomes `Except.error`.  The two
distinct error messages of the source are modelled by the two
constructors of `Err`.

On Python float power with a negative base: CPython returns the principal
complex power there rather than raising; its real part coincides with
the `Real.rpow` of Lean at a negative base.  Either way the value is not a
positive real, which is what the affected claims are about.
-/

namespace YPlus

/-- Error kinds raised by the tool: domain violations (`InvalidInput`,
the generic `ValueError`s) and the Schlichting correlation bound
(`OutOfRange`, the `Re < 1e9` message in `_cf_schlichting`). -/
inductive Err where
  | InvalidInput : Err
  | OutOfRange : Err
deriving DecidableEq

/-- Embedding of `_cf_schlichting` (src/main.py lines 4-9):
turbulent flat-plate skin friction, Schlichting correlation. -/
noncomputable def cf_schlichting (Re : ℝ) : Except Err ℝ :=
  if Re ≤ 0 then Except.error Err.InvalidInput
  else if Re ≥ 1e9 then Except.error Err.OutOfRange
  else Except.ok ((2 * Real.logb 10 Re - 0.65) ^ (-2.3 : ℝ))

/-- Embedding of `_cf_laminar` (src/main.py lines 11-16):
laminar flat-plate skin friction, Cf = 1.328 / sqrt(Re). -/
noncomputable def cf_laminar (Re : ℝ) : Except Err ℝ :=
  if Re ≤ 0 then Except.error Err.InvalidInput
  else Except.ok (1.328 / Real.sqrt Re)

/-- Result record of `estimate_wall_distance` (the dictionary returned at
src/main.py lines 56-63). -/
structure WallDistanceResult where
  Re : ℝ
  Cf : ℝ
  tau_w : ℝ
  u_tau : ℝ
  y : ℝ
  regime : String

/-- Regime resolution (src/main.py lines 43-46): in `auto` mode choose
laminar when `Re < transition_Re`, turbulent otherwise; an explicit
regime is passed through. -/
noncomputable def resolve_regime (regime : String) (Re transition_Re : ℝ) : String :=
  if regime = "auto" then
    (if Re < transition_Re then ("laminar") else ("turbulent"))
  else regime

/-- Embedding of `estimate_wall_distance` (src/main.py lines 18-63).
The source defaults (`regime="auto"`, `transition_Re=5.0e5`) are passed
explicitly by callers here. -/
noncomputable def estimate_wall_distance (u_inf rho mu L y_plus : ℝ)
    (regime : String) (transition_Re : ℝ) : Except Err WallDistanceResult :=
  let Re := rho * u_inf * L / mu
  if regime ≠ "laminar" ∧ regime ≠ "turbulent" ∧ regime ≠ "auto" then
    Except.error Err.InvalidInput
  else
    let active_regime := resolve_regime regime Re transition_Re
    match (if active_regime = "laminar" then cf_laminar Re else cf_schlichting Re) with
    | Except.error e => Except.error e
    | Except.ok Cf =>
      let tau_w := Cf * 0.5 * rho * u_inf ^ 2
      let u_tau := Real.sqrt (tau_w / rho)
      let y := y_plus * mu / (rho * u_tau)
      Except.ok ⟨Re, Cf, tau_w, u_tau, y, active_regime⟩

/-- Embedding of `calculate_boundary_layer_height` (src/main.py
lines 65-75): flat-plate boundary-layer thickness, laminar correlation
below the fixed threshold 5e5, seventh-power-law correlation at or
above it. -/
noncomputable def calculate_boundary_layer_height (length Re : ℝ) : Except Err ℝ :=
  if Re ≤ 0 then Except.error Err.InvalidInput
  else if Re < 5e5 then Except.ok (4.91 * length / Real.sqrt Re)
  else Except.ok (0.16 * length / Re ^ ((1 : ℝ) / 7))

/-- Embedding of `calculate_prism_layer_cells` (src/main.py lines 83-100):
number of prism layers from inverting the geometric series, rounded up. -/
noncomputable def calculate_prism_layer_cells
    (total_thickness first_cell_height growth_rate : ℝ) : Except Err ℤ :=
  if total_thickness ≤ 0 ∨ first_cell_height ≤ 0 ∨ growth_rate ≤ 1 then
    Except.error Err.InvalidInput
  else
    Except.ok (Int.ceil (Real.log (total_thickness * (growth_rate - 1) / first_cell_height + 1) /
      Real.log growth_rate))

/-- Result record of the orchestrator `calculate_all_parameters`
(src/main.py lines 117-122). -/
structure MeshingResult where
  wall_distance : ℝ
  total_boundary_layer_thickness : ℝ
  number_of_prism_layers : ℤ
  estimation_details : WallDistanceResult

/-- Embedding of the orchestrator `calculate_all_parameters`
(src/main.py lines 102-122): stages 4.2 -> 4.3 -> 4.4 in sequence,
threading Re and the first-cell height; any raised error propagates. -/
noncomputable def calculate_all_parameters
    (length free_stream_velocity density dynamic_viscosity y_plus_target growth_rate : ℝ) :
    Except Err MeshingResult :=
  match estimate_wall_distance free_stream_velocity density dynamic_viscosity length
      y_plus_target ("auto") 5e5 with
  | Except.error e => Except.error e
  | Except.ok res =>
    match calculate_boundary_layer_height length res.Re with
    | Except.error e => Except.error e
    | Except.ok total_thickness =>
      match calculate_prism_layer_cells total_thickness res.y growth_rate with
      | Except.error e => Except.error e
      | Except.ok n => Except.ok ⟨res.y, total_thickness, n, res⟩

/-- Geometric prism-layer sum from the spec (section 4.4):
S(n) = h0 * (r^n - 1) / (r - 1), the total height of n layers. -/
noncomputable def specGeomSum (h0 r : ℝ) (n : ℤ) : ℝ := h0 * (r ^ n - 1) / (r - 1)

/-- Helper: for valid prism-layer inputs, reaching the total thickness
with m layers is equivalent to the log-ratio being at most m. -/
lemma specGeomSum_ge_iff (T h0 r : ℝ) (m : ℤ)
    (hT : 0 < T) (hh : 0 < h0) (hr : 1 < r) :
    T ≤ specGeomSum h0 r m ↔
      Real.log (T * (r - 1) / h0 + 1) / Real.log r ≤ (m : ℝ) := by
  have hr0 : (0 : ℝ) < r := lt_trans one_pos hr
  have hr1 : (0 : ℝ) < r - 1 := by linarith
  have hlogr : 0 < Real.log r := Real.log_pos hr
  have hA : (0 : ℝ) < T * (r - 1) / h0 + 1 := by positivity
  have hrm : (0 : ℝ) < r ^ m := zpow_pos hr0 m
  rw [specGeomSum, le_div_iff₀ hr1, mul_comm h0, ← div_le_iff₀ hh,
    le_sub_iff_add_le, ← Real.log_le_log_iff hA hrm, Real.log_zpow,
    ← div_le_iff₀ hlogr]

/-- C1: for valid inputs (T > 0, h0 > 0, r > 1) the prism-layer count
estimator succeeds and returns the minimal integer n whose geometric sum
S(n) = h0*(r^n - 1)/(r - 1) reaches T, with S(n-1) strictly below T; it
fails with `InvalidInput` exactly when T ≤ 0, h0 ≤ 0 or r ≤ 1. -/
theorem prism_layer_count_spec (T h0 r : ℝ) (n : ℤ) :
    (calculate_prism_layer_cells T h0 r = Except.error Err.InvalidInput ↔
      T ≤ 0 ∨ h0 ≤ 0 ∨ r ≤ 1) ∧
    (0 < T → 0 < h0 → 1 < r →
      (∀ e, calculate_prism_layer_cells T h0 r ≠ Except.error e) ∧
      (calculate_prism_layer_cells T h0 r = Except.ok n →
        T ≤ specGeomSum h0 r n ∧ specGeomSum h0 r (n - 1) < T ∧
        ∀ m : ℤ, T ≤ specGeomSum h0 r m → n ≤ m)) := by
  constructor
  · constructor
    · intro h
      by_contra hc
      push_neg at hc
      obtain ⟨h1, h2, h3⟩ := hc
      rw [calculate_prism_layer_cells,
        if_neg (by push_neg; exact ⟨h1, h2, h3⟩)] at h
      exact Except.noConfusion h
    · intro h
      rw [calculate_prism_layer_cells, if_pos h]
  · intro hT hh hr
    have hguard : ¬ (T ≤ 0 ∨ h0 ≤ 0 ∨ r ≤ 1) := by push_neg; exact ⟨hT, hh, hr⟩
    constructor
    · intro e h
      rw [calculate_prism_layer_cells, if_neg hguard] at h
      exact Except.noConfusion h
    · intro h
      rw [calculate_prism_layer_cells, if_neg hguard] at h
      have hn : n = Int.ceil (Real.log (T * (r - 1) / h0 + 1) / Real.log r) :=
        (Except.ok.injEq _ _).mp h.symm
      set Lr := Real.log (T * (r - 1) / h0 + 1) / Real.log r with hLr
      refine ⟨?_, ?_, ?_⟩
      · exact (specGeomSum_ge_iff T h0 r n hT hh hr).mpr (by rw [hn]; exact Int.le_ceil Lr)
      · rw [← not_le]
        intro hcon
        have := (specGeomSum_ge_iff T h0 r (n - 1) hT hh hr).mp hcon
        have hceil : (Int.ceil Lr : ℝ) < Lr + 1 := Int.ceil_lt_add_one Lr
        rw [hn] at this
        push_cast at this
        linarith
      · intro m hm
        have := (specGeomSum_ge_iff T h0 r m hT hh hr).mp hm
        rw [hn]
        exact Int.ceil_le.mpr this

/-- Shared concrete evaluation: with T = 1, h0 = 1, r = 2 the prism-layer
count is ceil(log 2 / log 2) = 1. -/
lemma prism_eval_112 : calculate_prism_layer_cells 1 1 2 = Except.ok 1 := by
  rw [calculate_prism_layer_cells, if_neg (by norm_num)]
  have harg : (1 : ℝ) * (2 - 1) / 1 + 1 = 2 := by norm_num
  rw [harg, div_self (ne_of_gt (Real.log_pos one_lt_two)), Int.ceil_one]

/-- C1 witness: the failure case at (1, 0.001, 1) and the boundary
property of the returned count at (1, 1, 2). -/
theorem prism_layer_count_spec_witness :
    calculate_prism_layer_cells 1 0.001 1 = Except.error Err.InvalidInput ∧
    (1 : ℝ) ≤ specGeomSum 1 2 1 ∧ specGeomSum 1 2 (1 - 1) < 1 := by
  have herr := (prism_layer_count_spec 1 0.001 1 0).1.mpr (by norm_num)
  have h := ((prism_layer_count_spec 1 1 2 1).2 (by norm_num) (by norm_num)
    (by norm_num)).2 prism_eval_112
  exact ⟨herr, h.1, h.2.1⟩

/-- C9: for valid inputs the prism-layer count is at least 1, because the
ceiling argument log(T*(r-1)/h0 + 1)/log(r) is strictly positive. -/
theorem prism_layer_count_positive (T h0 r : ℝ) (n : ℤ)
    (hT : 0 < T) (hh : 0 < h0) (hr : 1 < r)
    (h : calculate_prism_layer_cells T h0 r = Except.ok n) : 1 ≤ n := by
  rw [calculate_prism_layer_cells,
    if_neg (by push_neg; exact ⟨hT, hh, by linarith⟩)] at h
  have hn : n = Int.ceil (Real.log (T * (r - 1) / h0 + 1) / Real.log r) :=
    (Except.ok.injEq _ _).mp h.symm
  have hA : (1 : ℝ) < T * (r - 1) / h0 + 1 := by
    have hr1 : (0 : ℝ) < r - 1 := by linarith
    have : 0 < T * (r - 1) / h0 := by positivity
    linarith
  have hpos : 0 < Real.log (T * (r - 1) / h0 + 1) / Real.log r :=
    div_pos (Real.log_pos hA) (Real.log_pos hr)
  rw [hn]
  exact Int.ceil_pos.mpr hpos

/-- C9 witness: at (1, 1, 2) the returned count 1 satisfies 1 ≤ 1. -/
theorem prism_layer_count_positive_witness : (1 : ℤ) ≤ 1 :=
  prism_layer_count_positive 1 1 2 1 (by norm_num) (by norm_num) (by norm_num)
    prism_eval_112

/-- C7: the laminar skin-friction estimator `_cf_laminar` returns exactly
1.328 / sqrt(Re) for every Re > 0, and fails with `InvalidInput` for
every Re ≤ 0. -/
theorem cf_laminar_spec (Re : ℝ) :
    (0 < Re → cf_laminar Re = Except.ok (1.328 / Real.sqrt Re)) ∧
    (Re ≤ 0 → cf_laminar Re = Except.error Err.InvalidInput) := by
  constructor
  · intro h
    simp [cf_laminar, not_le.mpr h]
  · intro h
    simp [cf_laminar, h]

/-- C7 witness: the two cases of `cf_laminar_spec` at Re = 4 and Re = -1. -/
theorem cf_laminar_spec_witness :
    cf_laminar 4 = Except.ok (1.328 / Real.sqrt 4) ∧
    cf_laminar (-1) = Except.error Err.InvalidInput :=
  ⟨(cf_laminar_spec 4).1 (by norm_num), (cf_laminar_spec (-1)).2 (by norm_num)⟩

/-- C3: for every length L and Re > 0, `calculate_boundary_layer_height`
returns 4.91*L/sqrt(Re) when Re < 5e5 and 0.16*L/Re^(1/7) when Re ≥ 5e5.
The cutoff is the fixed literal 5e5: the function takes no transition
threshold argument, so the caller-supplied `transition_Re` used for
regime selection in `estimate_wall_distance` cannot influence it. -/
theorem boundary_layer_height_formula (L Re : ℝ) (h : 0 < Re) :
    calculate_boundary_layer_height L Re =
      (if Re < 5e5 then Except.ok (4.91 * L / Real.sqrt Re)
       else Except.ok (0.16 * L / Re ^ ((1 : ℝ) / 7))) := by
  simp [calculate_boundary_layer_height, not_le.mpr h]

/-- C3 witness: laminar branch at L = 1, Re = 4. -/
theorem boundary_layer_height_formula_witness :
    calculate_boundary_layer_height 1 4 = Except.ok (4.91 * 1 / Real.sqrt 4) := by
  have h := boundary_layer_height_formula 1 4 (by norm_num)
  rw [if_pos (by norm_num : (4 : ℝ) < 5e5)] at h
  exact h

/-- C6: `_cf_schlichting` fails with `InvalidInput` exactly when Re ≤ 0,
with the distinct `OutOfRange` error exactly when Re ≥ 1e9 (and Re > 0,
since the Re ≤ 0 check comes first), the two error kinds differ, and for
0 < Re < 1e9 it succeeds with (2*log10(Re) - 0.65)^(-2.3). -/
theorem cf_schlichting_error_taxonomy (Re : ℝ) :
    (cf_schlichting Re = Except.error Err.InvalidInput ↔ Re ≤ 0) ∧
    (cf_schlichting Re = Except.error Err.OutOfRange ↔ 0 < Re ∧ 1e9 ≤ Re) ∧
    Err.InvalidInput ≠ Err.OutOfRange ∧
    (0 < Re → Re < 1e9 →
      cf_schlichting Re = Except.ok ((2 * Real.logb 10 Re - 0.65) ^ (-2.3 : ℝ))) := by
  refine ⟨⟨?_, ?_⟩, ⟨?_, ?_⟩, by decide, ?_⟩
  · intro h
    by_contra hc
    have h0 : ¬ Re ≤ 0 := hc
    by_cases h9 : Re ≥ 1e9 <;> simp [cf_schlichting, h0, h9] at h
  · intro h
    simp [cf_schlichting, h]
  · intro h
    by_cases h0 : Re ≤ 0
    · simp [cf_schlichting, h0] at h
    · by_cases h9 : Re ≥ 1e9
      · exact ⟨not_le.mp h0, h9⟩
      · simp [cf_schlichting, h0, h9] at h
  · rintro ⟨h0, h9⟩
    simp [cf_schlichting, not_le.mpr h0, ge_iff_le, h9]
  · intro h0 h9
    simp [cf_schlichting, not_le.mpr h0, not_le.mpr h9]

/-- C6 witness: the three cases at Re = -5, Re = 2e9 and Re = 10. -/
theorem cf_schlichting_error_taxonomy_witness :
    cf_schlichting (-5) = Except.error Err.InvalidInput ∧
    cf_schlichting 2e9 = Except.error Err.OutOfRange ∧
    cf_schlichting 10 = Except.ok ((2 * Real.logb 10 10 - 0.65) ^ (-2.3 : ℝ)) :=
  ⟨(cf_schlichting_error_taxonomy (-5)).1.mpr (by norm_num),
   (cf_schlichting_error_taxonomy 2e9).2.1.mpr (by norm_num),
   (cf_schlichting_error_taxonomy 10).2.2.2 (by norm_num) (by norm_num)⟩

/-- C2 counterexample: Re = 10^(13/40) (about 2.11) lies inside the
claimed domain 0 < Re < 1e9, yet there the Schlichting base
2*log10(Re) - 0.65 is exactly 0, so the estimator returns 0^(-2.3) = 0,
which is not a positive skin-friction value (in CPython this input raises
ZeroDivisionError, and nearby inputs yield complex values: either way no
positive real is returned, refuting positivity and monotonicity on the
claimed domain). -/
theorem cf_schlichting_positivity_counterexample :
    0 < (10 : ℝ) ^ ((13 : ℝ) / 40) ∧ (10 : ℝ) ^ ((13 : ℝ) / 40) < 1e9 ∧
    cf_schlichting ((10 : ℝ) ^ ((13 : ℝ) / 40)) = Except.ok 0 := by
  have hpos : (0 : ℝ) < (10 : ℝ) ^ ((13 : ℝ) / 40) :=
    Real.rpow_pos_of_pos (by norm_num) _
  have hlt : (10 : ℝ) ^ ((13 : ℝ) / 40) < 1e9 := by
    have ha : (10 : ℝ) ^ ((13 : ℝ) / 40) < (10 : ℝ) ^ ((9 : ℝ)) :=
      Real.rpow_lt_rpow_of_exponent_lt (by norm_num) (by norm_num)
    have hb : (10 : ℝ) ^ ((9 : ℝ)) = 1e9 := by
      rw [show ((9 : ℝ)) = ((9 : ℕ) : ℝ) by norm_num, Real.rpow_natCast]
      norm_num
    linarith
  refine ⟨hpos, hlt, ?_⟩
  rw [cf_schlichting, if_neg (not_le.mpr hpos), if_neg (not_le.mpr hlt)]
  rw [Real.logb_rpow (by norm_num : (0 : ℝ) < 10) (by norm_num : (10 : ℝ) ≠ 1)]
  rw [show (2 * ((13 : ℝ) / 40) - 0.65) = 0 by norm_num]
  rw [Real.zero_rpow (by norm_num : ((-2.3 : ℝ)) ≠ 0)]

/-- C2 amended: restricted to the subdomain where the correlation base is
positive (2*log10(Re) > 0.65, i.e. Re > 10^0.325 ≈ 2.11), with Re < 1e9,
the turbulent estimator succeeds and its value is positive and
monotonically decreasing in Re. -/
theorem cf_schlichting_pos_antitone_amended (Re1 Re2 : ℝ)
    (hbase : 0.65 < 2 * Real.logb 10 Re1) (h1 : 0 < Re1) (h12 : Re1 ≤ Re2)
    (h9 : Re2 < 1e9) :
    cf_schlichting Re1 = Except.ok ((2 * Real.logb 10 Re1 - 0.65) ^ (-2.3 : ℝ)) ∧
    cf_schlichting Re2 = Except.ok ((2 * Real.logb 10 Re2 - 0.65) ^ (-2.3 : ℝ)) ∧
    0 < (2 * Real.logb 10 Re2 - 0.65) ^ (-2.3 : ℝ) ∧
    (2 * Real.logb 10 Re2 - 0.65) ^ (-2.3 : ℝ) ≤
      (2 * Real.logb 10 Re1 - 0.65) ^ (-2.3 : ℝ) := by
  have h2 : 0 < Re2 := lt_of_lt_of_le h1 h12
  have h19 : Re1 < 1e9 := lt_of_le_of_lt h12 h9
  have hb1 : 0 < 2 * Real.logb 10 Re1 - 0.65 := by linarith
  have hmono : Real.logb 10 Re1 ≤ Real.logb 10 Re2 :=
    Real.logb_le_logb_of_le (by norm_num) h1 h12
  have hb2 : 0 < 2 * Real.logb 10 Re2 - 0.65 := by linarith
  refine ⟨?_, ?_, Real.rpow_pos_of_pos hb2 _, ?_⟩
  · rw [cf_schlichting, if_neg (not_le.mpr h1), if_neg (not_le.mpr h19)]
  · rw [cf_schlichting, if_neg (not_le.mpr h2), if_neg (not_le.mpr h9)]
  · have hble : 2 * Real.logb 10 Re1 - 0.65 ≤ 2 * Real.logb 10 Re2 - 0.65 := by
      linarith
    rw [show ((-2.3 : ℝ)) = -(2.3) by norm_num,
      Real.rpow_neg (le_of_lt hb1), Real.rpow_neg (le_of_lt hb2)]
    exact inv_anti₀ (Real.rpow_pos_of_pos hb1 _)
      (Real.rpow_le_rpow (le_of_lt hb1) hble (by norm_num))

/-- C2 amended witness at Re1 = 10, Re2 = 100: positivity and the
monotone-decrease inequality of the amended theorem. -/
theorem cf_schlichting_pos_antitone_amended_witness :
    0 < (2 * Real.logb 10 100 - 0.65) ^ (-2.3 : ℝ) ∧
    (2 * Real.logb 10 100 - 0.65) ^ (-2.3 : ℝ) ≤
      (2 * Real.logb 10 10 - 0.65) ^ (-2.3 : ℝ) := by
  have h := cf_schlichting_pos_antitone_amended 10 100
    (by rw [Real.logb_self_eq_one (by norm_num : (1 : ℝ) < 10)]; norm_num)
    (by norm_num) (by norm_num) (by norm_num)
  exact ⟨h.2.2.1, h.2.2.2⟩

/-- Helper: for a recognized regime string, a successful skin-friction
computation determines the whole wall-distance result record. -/
lemma estimate_ok_of_cf_ok (u_inf rho mu L y_plus transition_Re : ℝ) (regime : String)
    (hvalid : regime = "laminar" ∨ regime = "turbulent" ∨ regime = "auto") (c : ℝ)
    (hcf : (if resolve_regime regime (rho * u_inf * L / mu) transition_Re = "laminar"
        then cf_laminar (rho * u_inf * L / mu)
        else cf_schlichting (rho * u_inf * L / mu)) = Except.ok c) :
    estimate_wall_distance u_inf rho mu L y_plus regime transition_Re =
      Except.ok ⟨rho * u_inf * L / mu, c,
        c * 0.5 * rho * u_inf ^ 2,
        Real.sqrt (c * 0.5 * rho * u_inf ^ 2 / rho),
        y_plus * mu / (rho * Real.sqrt (c * 0.5 * rho * u_inf ^ 2 / rho)),
        resolve_regime regime (rho * u_inf * L / mu) transition_Re⟩ := by
  have hv : ¬ (regime ≠ "laminar" ∧ regime ≠ "turbulent" ∧ regime ≠ "auto") := by
    rcases hvalid with h | h | h <;> simp [h]
  simp only [estimate_wall_distance, if_neg hv, hcf]

/-- Helper: for a recognized regime string, a failing skin-friction
computation makes the wall-distance estimator fail with the same error. -/
lemma estimate_error_of_cf_error (u_inf rho mu L y_plus transition_Re : ℝ)
    (regime : String)
    (hvalid : regime = "laminar" ∨ regime = "turbulent" ∨ regime = "auto") (e : Err)
    (hcf : (if resolve_regime regime (rho * u_inf * L / mu) transition_Re = "laminar"
        then cf_laminar (rho * u_inf * L / mu)
        else cf_schlichting (rho * u_inf * L / mu)) = Except.error e) :
    estimate_wall_distance u_inf rho mu L y_plus regime transition_Re =
      Except.error e := by
  have hv : ¬ (regime ≠ "laminar" ∧ regime ≠ "turbulent" ∧ regime ≠ "auto") := by
    rcases hvalid with h | h | h <;> simp [h]
  simp only [estimate_wall_distance, if_neg hv, hcf]

/-- Helper: a successful wall-distance estimate records the derived
Reynolds number and the resolved regime. -/
lemma estimate_ok_fields (u_inf rho mu L y_plus : ℝ) (regime : String)
    (transition_Re : ℝ) (r : WallDistanceResult)
    (h : estimate_wall_distance u_inf rho mu L y_plus regime transition_Re =
      Except.ok r) :
    r.Re = rho * u_inf * L / mu ∧
    r.regime = resolve_regime regime (rho * u_inf * L / mu) transition_Re := by
  simp only [estimate_wall_distance] at h
  split at h
  · exact absurd h (by simp)
  · split at h
    · exact absurd h (by simp)
    · injection h with h'
      subst h'
      exact ⟨rfl, rfl⟩

/-- C5: in auto mode the transition threshold is an exclusive lower bound
for the turbulent regime: Re < t resolves to laminar, t ≤ Re (including
Re exactly at the threshold) resolves to turbulent, and a successful call
records the resolved regime in its regime field. -/
theorem auto_regime_threshold (u_inf rho mu L y_plus t : ℝ) (r : WallDistanceResult) :
    (rho * u_inf * L / mu < t →
      resolve_regime ("auto") (rho * u_inf * L / mu) t = "laminar") ∧
    (t ≤ rho * u_inf * L / mu →
      resolve_regime ("auto") (rho * u_inf * L / mu) t = "turbulent") ∧
    (estimate_wall_distance u_inf rho mu L y_plus ("auto") t = Except.ok r →
      r.regime = resolve_regime ("auto") (rho * u_inf * L / mu) t) := by
  refine ⟨?_, ?_, ?_⟩
  · intro h
    rw [resolve_regime, if_pos rfl, if_pos h]
  · intro h
    rw [resolve_regime, if_pos rfl, if_neg (not_lt.mpr h)]
  · intro h
    exact (estimate_ok_fields u_inf rho mu L y_plus ("auto") t r h).2

/-- Concrete skin-friction value on the turbulent path with all inputs 1:
the Schlichting formula at Re = 1*1*1/1. -/
noncomputable def cTurbEx : ℝ :=
  (2 * Real.logb 10 ((1 : ℝ) * 1 * 1 / 1) - 0.65) ^ (-2.3 : ℝ)

/-- Concrete wall-distance result for inputs all 1 with transition
threshold 1 (Re = 1 sits exactly at the threshold, turbulent path). -/
noncomputable def wallTurbEx : WallDistanceResult :=
  ⟨(1 : ℝ) * 1 * 1 / 1, cTurbEx, cTurbEx * 0.5 * 1 * 1 ^ 2,
    Real.sqrt (cTurbEx * 0.5 * 1 * 1 ^ 2 / 1),
    1 * 1 / (1 * Real.sqrt (cTurbEx * 0.5 * 1 * 1 ^ 2 / 1)), "turbulent"⟩

/-- Shared concrete evaluation: all inputs 1, auto regime, threshold 1. -/
lemma estimate_eval_turb :
    estimate_wall_distance 1 1 1 1 1 ("auto") 1 = Except.ok wallTurbEx := by
  have hres : resolve_regime ("auto") ((1 : ℝ) * 1 * 1 / 1) 1 = "turbulent" := by
    rw [resolve_regime, if_pos rfl, if_neg (by norm_num)]
  have hcf : (if resolve_regime ("auto") ((1 : ℝ) * 1 * 1 / 1) 1 = "laminar"
      then cf_laminar ((1 : ℝ) * 1 * 1 / 1)
      else cf_schlichting ((1 : ℝ) * 1 * 1 / 1)) = Except.ok cTurbEx := by
    rw [hres, if_neg (by decide), cf_schlichting, if_neg (by norm_num),
      if_neg (by norm_num)]
    rfl
  have h := estimate_ok_of_cf_ok 1 1 1 1 1 1 ("auto") (Or.inr (Or.inr rfl)) cTurbEx hcf
  rw [h, hres]
  rfl

/-- C5 witness: with all inputs 1 and threshold 1, Re = 1 is exactly at
the threshold, resolves to turbulent, and the returned record says so. -/
theorem auto_regime_threshold_witness :
    resolve_regime ("auto") ((1 : ℝ) * 1 * 1 / 1) 1 = "turbulent" ∧
    wallTurbEx.regime = resolve_regime ("auto") ((1 : ℝ) * 1 * 1 / 1) 1 :=
  ⟨(auto_regime_threshold 1 1 1 1 1 1 wallTurbEx).2.1 (by norm_num),
   (auto_regime_threshold 1 1 1 1 1 1 wallTurbEx).2.2 estimate_eval_turb⟩

/-- C4 counterexample: with U = ρ = μ = y+ = 1 and L = 10^(13/40) the
derived Re = 10^(13/40) lies in the claimed turbulent domain
0 < Re < 1e9, the explicit turbulent call succeeds in the embedding, but
the returned wall distance is 0, not strictly positive (the Schlichting
base is exactly 0 there, so Cf = 0, the wall shear and shear velocity are
0, and the final division by rho * u_tau = 0 yields 0; CPython raises
ZeroDivisionError at this point instead of succeeding — either way no
positive wall distance is produced). -/
theorem wall_distance_positive_counterexample :
    0 < (1 : ℝ) * 1 * ((10 : ℝ) ^ ((13 : ℝ) / 40)) / 1 ∧
    (1 : ℝ) * 1 * ((10 : ℝ) ^ ((13 : ℝ) / 40)) / 1 < 1e9 ∧
    Except.map WallDistanceResult.y
      (estimate_wall_distance 1 1 1 ((10 : ℝ) ^ ((13 : ℝ) / 40)) 1 ("turbulent") 5e5) =
      Except.ok 0 := by
  have hX : (0 : ℝ) < (10 : ℝ) ^ ((13 : ℝ) / 40) :=
    Real.rpow_pos_of_pos (by norm_num) _
  have hXlt : (10 : ℝ) ^ ((13 : ℝ) / 40) < 1e9 := by
    have ha : (10 : ℝ) ^ ((13 : ℝ) / 40) < (10 : ℝ) ^ ((9 : ℝ)) :=
      Real.rpow_lt_rpow_of_exponent_lt (by norm_num) (by norm_num)
    have hb : (10 : ℝ) ^ ((9 : ℝ)) = 1e9 := by
      rw [show ((9 : ℝ)) = ((9 : ℕ) : ℝ) by norm_num, Real.rpow_natCast]
      norm_num
    linarith
  have hRe : (1 : ℝ) * 1 * ((10 : ℝ) ^ ((13 : ℝ) / 40)) / 1 =
      (10 : ℝ) ^ ((13 : ℝ) / 40) := by ring
  have hres : resolve_regime ("turbulent") ((1 : ℝ) * 1 * ((10 : ℝ) ^ ((13 : ℝ) / 40)) / 1)
      5e5 = "turbulent" := by
    rw [resolve_regime, if_neg (by decide)]
  have hcf : (if resolve_regime ("turbulent")
        ((1 : ℝ) * 1 * ((10 : ℝ) ^ ((13 : ℝ) / 40)) / 1) 5e5 = "laminar"
      then cf_laminar ((1 : ℝ) * 1 * ((10 : ℝ) ^ ((13 : ℝ) / 40)) / 1)
      else cf_schlichting ((1 : ℝ) * 1 * ((10 : ℝ) ^ ((13 : ℝ) / 40)) / 1)) =
      Except.ok 0 := by
    rw [hres, if_neg (by decide), cf_schlichting, hRe, if_neg (not_le.mpr hX),
      if_neg (not_le.mpr hXlt),
      Real.logb_rpow (by norm_num : (0 : ℝ) < 10) (by norm_num : (10 : ℝ) ≠ 1),
      show (2 * ((13 : ℝ) / 40) - 0.65) = 0 by norm_num,
      Real.zero_rpow (by norm_num : ((-2.3 : ℝ)) ≠ 0)]
  have h := estimate_ok_of_cf_ok 1 1 1 ((10 : ℝ) ^ ((13 : ℝ) / 40)) 1 5e5 ("turbulent")
    (Or.inr (Or.inl rfl)) 0 hcf
  refine ⟨by rw [hRe]; exact hX, by rw [hRe]; exact hXlt, ?_⟩
  rw [h]
  simp [Except.map, Real.sqrt_eq_zero']

/-- C4 amended: the wall distance is strictly positive (and the call
cannot fail) whenever all inputs are positive, the regime string is
recognized, and the derived Re lies in the domain of the resolved regime,
where the turbulent domain additionally requires the Schlichting base to
be positive (2*log10(Re) > 0.65, i.e. Re > 10^0.325): without that extra
condition the claim fails, see the counterexample. (0 < Re is automatic
from the positive inputs.) -/
theorem wall_distance_positive_amended (u_inf rho mu L y_plus transition_Re : ℝ)
    (regime : String) (r : WallDistanceResult)
    (hu : 0 < u_inf) (hrho : 0 < rho) (hmu : 0 < mu) (hL : 0 < L) (hyp : 0 < y_plus)
    (hvalid : regime = "laminar" ∨ regime = "turbulent" ∨ regime = "auto")
    (hdom : resolve_regime regime (rho * u_inf * L / mu) transition_Re = "laminar" ∨
      (resolve_regime regime (rho * u_inf * L / mu) transition_Re = "turbulent" ∧
        rho * u_inf * L / mu < 1e9 ∧
        0.65 < 2 * Real.logb 10 (rho * u_inf * L / mu))) :
    (∀ e, estimate_wall_distance u_inf rho mu L y_plus regime transition_Re ≠
      Except.error e) ∧
    (estimate_wall_distance u_inf rho mu L y_plus regime transition_Re =
      Except.ok r → 0 < r.y) := by
  have hRe : 0 < rho * u_inf * L / mu := by positivity
  obtain ⟨c, hcf, hc⟩ : ∃ c,
      (if resolve_regime regime (rho * u_inf * L / mu) transition_Re = "laminar"
        then cf_laminar (rho * u_inf * L / mu)
        else cf_schlichting (rho * u_inf * L / mu)) = Except.ok c ∧ 0 < c := by
    rcases hdom with ha | ⟨ha, h9, hbase⟩
    · refine ⟨1.328 / Real.sqrt (rho * u_inf * L / mu), ?_, ?_⟩
      · rw [if_pos ha, cf_laminar, if_neg (not_le.mpr hRe)]
      · exact div_pos (by norm_num) (Real.sqrt_pos.mpr hRe)
    · refine ⟨(2 * Real.logb 10 (rho * u_inf * L / mu) - 0.65) ^ (-2.3 : ℝ), ?_, ?_⟩
      · rw [if_neg (by rw [ha]; decide), cf_schlichting, if_neg (not_le.mpr hRe),
          if_neg (not_le.mpr h9)]
      · exact Real.rpow_pos_of_pos (by linarith) _
  have heval := estimate_ok_of_cf_ok u_inf rho mu L y_plus transition_Re regime
    hvalid c hcf
  constructor
  · intro e he
    rw [heval] at he
    exact absurd he (by simp)
  · intro hok
    rw [heval] at hok
    injection hok with h'
    subst h'
    show 0 < y_plus * mu / (rho * Real.sqrt (c * 0.5 * rho * u_inf ^ 2 / rho))
    have htau : 0 < c * 0.5 * rho * u_inf ^ 2 := by positivity
    have hut : 0 < Real.sqrt (c * 0.5 * rho * u_inf ^ 2 / rho) :=
      Real.sqrt_pos.mpr (div_pos htau hrho)
    exact div_pos (mul_pos hyp hmu) (mul_pos hrho hut)

/-- Concrete turbulent wall-distance record at U = ρ = μ = y+ = 1,
L = 10 (Re = 10), explicit turbulent regime. -/
noncomputable def wallTurb10Ex : WallDistanceResult :=
  ⟨(1 : ℝ) * 1 * 10 / 1,
    (2 * Real.logb 10 ((1 : ℝ) * 1 * 10 / 1) - 0.65) ^ (-2.3 : ℝ),
    (2 * Real.logb 10 ((1 : ℝ) * 1 * 10 / 1) - 0.65) ^ (-2.3 : ℝ) * 0.5 * 1 * 1 ^ 2,
    Real.sqrt ((2 * Real.logb 10 ((1 : ℝ) * 1 * 10 / 1) - 0.65) ^ (-2.3 : ℝ) *
      0.5 * 1 * 1 ^ 2 / 1),
    1 * 1 / (1 * Real.sqrt ((2 * Real.logb 10 ((1 : ℝ) * 1 * 10 / 1) - 0.65) ^
      (-2.3 : ℝ) * 0.5 * 1 * 1 ^ 2 / 1)),
    "turbulent"⟩

/-- C4 amended witness: at U = ρ = μ = y+ = 1, L = 10 the explicit
turbulent call has Re = 10 with positive Schlichting base, and the
returned wall distance is strictly positive. -/
theorem wall_distance_positive_amended_witness : 0 < wallTurb10Ex.y := by
  have hres : resolve_regime ("turbulent") ((1 : ℝ) * 1 * 10 / 1) 5e5 = "turbulent" := by
    rw [resolve_regime, if_neg (by decide)]
  have hcf : (if resolve_regime ("turbulent") ((1 : ℝ) * 1 * 10 / 1) 5e5 = "laminar"
      then cf_laminar ((1 : ℝ) * 1 * 10 / 1)
      else cf_schlichting ((1 : ℝ) * 1 * 10 / 1)) =
      Except.ok ((2 * Real.logb 10 ((1 : ℝ) * 1 * 10 / 1) - 0.65) ^ (-2.3 : ℝ)) := by
    rw [hres, if_neg (by decide), cf_schlichting, if_neg (by norm_num),
      if_neg (by norm_num)]
  have hbase : 0.65 < 2 * Real.logb 10 ((1 : ℝ) * 1 * 10 / 1) := by
    rw [show ((1 : ℝ) * 1 * 10 / 1) = 10 by norm_num,
      Real.logb_self_eq_one (by norm_num : (1 : ℝ) < 10)]
    norm_num
  have hok : estimate_wall_distance 1 1 1 10 1 ("turbulent") 5e5 =
      Except.ok wallTurb10Ex := by
    have h2 := estimate_ok_of_cf_ok 1 1 1 10 1 5e5 ("turbulent")
      (Or.inr (Or.inl rfl)) _ hcf
    rw [h2, hres]
    rfl
  have h := wall_distance_positive_amended 1 1 1 10 1 5e5 ("turbulent") wallTurb10Ex
    (by norm_num) (by norm_num) (by norm_num) (by norm_num) (by norm_num)
    (Or.inr (Or.inl rfl)) (Or.inr ⟨hres, by norm_num, hbase⟩)
  exact h.2 hok

/-- Concrete laminar skin-friction value at Re = 1*1*1/1. -/
noncomputable def cLamEx : ℝ := 1.328 / Real.sqrt ((1 : ℝ) * 1 * 1 / 1)

/-- Concrete laminar wall-distance record for all-ones inputs with the
default threshold 5e5 (auto regime resolves laminar at Re = 1). -/
noncomputable def wallLamEx : WallDistanceResult :=
  ⟨(1 : ℝ) * 1 * 1 / 1, cLamEx, cLamEx * 0.5 * 1 * 1 ^ 2,
    Real.sqrt (cLamEx * 0.5 * 1 * 1 ^ 2 / 1),
    1 * 1 / (1 * Real.sqrt (cLamEx * 0.5 * 1 * 1 ^ 2 / 1)), "laminar"⟩

/-- Shared concrete evaluation: the all-ones estimate with the default
threshold takes the laminar path. -/
lemma estimate_eval_lam :
    estimate_wall_distance 1 1 1 1 1 ("auto") 5e5 = Except.ok wallLamEx := by
  have hres : resolve_regime ("auto") ((1 : ℝ) * 1 * 1 / 1) 5e5 = "laminar" := by
    rw [resolve_regime, if_pos rfl, if_pos (by norm_num)]
  have hcf : (if resolve_regime ("auto") ((1 : ℝ) * 1 * 1 / 1) 5e5 = "laminar"
      then cf_laminar ((1 : ℝ) * 1 * 1 / 1)
      else cf_schlichting ((1 : ℝ) * 1 * 1 / 1)) = Except.ok cLamEx := by
    rw [hres, if_pos rfl, cf_laminar, if_neg (by norm_num)]
    rfl
  have h := estimate_ok_of_cf_ok 1 1 1 1 1 5e5 ("auto") (Or.inr (Or.inr rfl)) cLamEx hcf
  rw [h, hres]
  rfl

/-- Positivity of the concrete laminar skin-friction value. -/
lemma cLamEx_pos : 0 < cLamEx := by
  unfold cLamEx
  have h : (0 : ℝ) < Real.sqrt ((1 : ℝ) * 1 * 1 / 1) :=
    Real.sqrt_pos.mpr (by norm_num)
  positivity

/-- Positivity of the concrete laminar wall distance. -/
lemma wallLamEx_y_pos : 0 < wallLamEx.y := by
  show 0 < 1 * 1 / (1 * Real.sqrt (cLamEx * 0.5 * 1 * 1 ^ 2 / 1))
  have hc := cLamEx_pos
  have h : 0 < Real.sqrt (cLamEx * 0.5 * 1 * 1 ^ 2 / 1) :=
    Real.sqrt_pos.mpr (by positivity)
  positivity

/-- Concrete boundary-layer thickness at length 1, Re = 1*1*1/1. -/
noncomputable def TLamEx : ℝ := 4.91 * 1 / Real.sqrt ((1 : ℝ) * 1 * 1 / 1)

/-- Shared concrete evaluation: the boundary layer at Re = 1 is laminar. -/
lemma boundary_eval_lam :
    calculate_boundary_layer_height 1 wallLamEx.Re = Except.ok TLamEx := by
  show calculate_boundary_layer_height 1 ((1 : ℝ) * 1 * 1 / 1) = Except.ok TLamEx
  rw [calculate_boundary_layer_height, if_neg (by norm_num), if_pos (by norm_num)]
  rfl

/-- Positivity of the concrete boundary-layer thickness. -/
lemma TLamEx_pos : 0 < TLamEx := by
  unfold TLamEx
  have h : (0 : ℝ) < Real.sqrt ((1 : ℝ) * 1 * 1 / 1) :=
    Real.sqrt_pos.mpr (by norm_num)
  positivity

/-- Concrete prism-layer count for thickness TLamEx, first-cell height
wallLamEx.y, growth rate 2. -/
noncomputable def nLamEx : ℤ :=
  Int.ceil (Real.log (TLamEx * (2 - 1) / wallLamEx.y + 1) / Real.log 2)

/-- Shared concrete evaluation of the prism-layer stage on the laminar
pipeline values. -/
lemma prism_eval_lam :
    calculate_prism_layer_cells TLamEx wallLamEx.y 2 = Except.ok nLamEx := by
  rw [calculate_prism_layer_cells, if_neg (by
    push_neg
    exact ⟨TLamEx_pos, wallLamEx_y_pos, by norm_num⟩)]
  rfl

/-- Concrete meshing result of the all-ones laminar pipeline with growth
rate 2. -/
noncomputable def meshEx : MeshingResult := ⟨wallLamEx.y, TLamEx, nLamEx, wallLamEx⟩

/-- Shared concrete evaluation of the whole orchestrator on the all-ones
inputs with growth rate 2. -/
lemma calc_all_eval : calculate_all_parameters 1 1 1 1 1 2 = Except.ok meshEx := by
  simp only [calculate_all_parameters, estimate_eval_lam, boundary_eval_lam,
    prism_eval_lam]
  rfl

/-- C8: the orchestrator propagates any stage failure unchanged (no
partial result), and on success returns exactly the threaded stage
outputs: wall distance and details from stage 1, thickness from stage 2
applied to the recorded Re, count from stage 3 applied to the stage-2
thickness and the stage-1 first-cell height. -/
theorem orchestrator_propagation
    (length u rho mu yp gr : ℝ) (e : Err) (r : WallDistanceResult) (T : ℝ) (n : ℤ) :
    (estimate_wall_distance u rho mu length yp ("auto") 5e5 = Except.error e →
      calculate_all_parameters length u rho mu yp gr = Except.error e) ∧
    (estimate_wall_distance u rho mu length yp ("auto") 5e5 = Except.ok r →
      calculate_boundary_layer_height length r.Re = Except.error e →
      calculate_all_parameters length u rho mu yp gr = Except.error e) ∧
    (estimate_wall_distance u rho mu length yp ("auto") 5e5 = Except.ok r →
      calculate_boundary_layer_height length r.Re = Except.ok T →
      calculate_prism_layer_cells T r.y gr = Except.error e →
      calculate_all_parameters length u rho mu yp gr = Except.error e) ∧
    (estimate_wall_distance u rho mu length yp ("auto") 5e5 = Except.ok r →
      calculate_boundary_layer_height length r.Re = Except.ok T →
      calculate_prism_layer_cells T r.y gr = Except.ok n →
      calculate_all_parameters length u rho mu yp gr = Except.ok ⟨r.y, T, n, r⟩) := by
  refine ⟨?_, ?_, ?_, ?_⟩
  · intro h1
    simp only [calculate_all_parameters, h1]
  · intro h1 h2
    simp only [calculate_all_parameters, h1, h2]
  · intro h1 h2 h3
    simp only [calculate_all_parameters, h1, h2, h3]
  · intro h1 h2 h3
    simp only [calculate_all_parameters, h1, h2, h3]

/-- Shared concrete evaluation: with a negative freestream velocity the
derived Re is negative, so the laminar stage fails with InvalidInput
inside the estimator. -/
lemma estimate_eval_neg :
    estimate_wall_distance (-1) 1 1 1 1 ("auto") 5e5 =
      Except.error Err.InvalidInput := by
  have hres : resolve_regime ("auto") ((1 : ℝ) * (-1) * 1 / 1) 5e5 = "laminar" := by
    rw [resolve_regime, if_pos rfl, if_pos (by norm_num)]
  have hcf : (if resolve_regime ("auto") ((1 : ℝ) * (-1) * 1 / 1) 5e5 = "laminar"
      then cf_laminar ((1 : ℝ) * (-1) * 1 / 1)
      else cf_schlichting ((1 : ℝ) * (-1) * 1 / 1)) =
      Except.error Err.InvalidInput := by
    rw [hres, if_pos rfl, cf_laminar, if_pos (by norm_num)]
  exact estimate_error_of_cf_error (-1) 1 1 1 1 5e5 ("auto") (Or.inr (Or.inr rfl))
    Err.InvalidInput hcf

/-- C8 witness: a failing run (U = -1) propagates InvalidInput to the
orchestrator, and the all-ones run returns exactly the threaded stage
outputs. -/
theorem orchestrator_propagation_witness :
    calculate_all_parameters 1 (-1) 1 1 1 2 = Except.error Err.InvalidInput ∧
    calculate_all_parameters 1 1 1 1 1 2 =
      Except.ok ⟨wallLamEx.y, TLamEx, nLamEx, wallLamEx⟩ :=
  ⟨(orchestrator_propagation 1 (-1) 1 1 1 2 Err.InvalidInput
      ⟨0, 0, 0, 0, 0, "laminar"⟩ 0 0).1 estimate_eval_neg,
   (orchestrator_propagation 1 1 1 1 1 2 Err.InvalidInput wallLamEx TLamEx
      nLamEx).2.2.2 estimate_eval_lam boundary_eval_lam prism_eval_lam⟩

/-- C10: for the orchestrator entry point (auto regime with the default
threshold 5e5) the regime recorded in the embedded wall-distance result
always agrees with the boundary-layer correlation branch: laminar iff
Re < 5e5 (laminar formula used), turbulent iff Re ≥ 5e5 (seventh-power
formula used). -/
theorem orchestrator_regime_consistency (length u rho mu yp gr : ℝ)
    (m : MeshingResult)
    (h : calculate_all_parameters length u rho mu yp gr = Except.ok m) :
    (m.estimation_details.regime = "laminar" ↔ m.estimation_details.Re < 5e5) ∧
    (m.estimation_details.regime = "turbulent" ↔ 5e5 ≤ m.estimation_details.Re) ∧
    (m.estimation_details.Re < 5e5 →
      m.total_boundary_layer_thickness =
        4.91 * length / Real.sqrt m.estimation_details.Re) ∧
    (5e5 ≤ m.estimation_details.Re →
      m.total_boundary_layer_thickness =
        0.16 * length / m.estimation_details.Re ^ ((1 : ℝ) / 7)) := by
  simp only [calculate_all_parameters] at h
  cases h1 : estimate_wall_distance u rho mu length yp ("auto") 5e5 with
  | error e => simp only [h1] at h; exact absurd h (by simp)
  | ok res =>
    simp only [h1] at h
    cases h2 : calculate_boundary_layer_height length res.Re with
    | error e => simp only [h2] at h; exact absurd h (by simp)
    | ok T =>
      simp only [h2] at h
      cases h3 : calculate_prism_layer_cells T res.y gr with
      | error e => simp only [h3] at h; exact absurd h (by simp)
      | ok n =>
        simp only [h3] at h
        injection h with h'
        subst h'
        obtain ⟨hRe, hreg⟩ :=
          estimate_ok_fields u rho mu length yp ("auto") 5e5 res h1
        rw [resolve_regime, if_pos rfl] at hreg
        show (res.regime = "laminar" ↔ res.Re < 5e5) ∧
          (res.regime = "turbulent" ↔ 5e5 ≤ res.Re) ∧
          (res.Re < 5e5 → T = 4.91 * length / Real.sqrt res.Re) ∧
          (5e5 ≤ res.Re → T = 0.16 * length / res.Re ^ ((1 : ℝ) / 7))
        have hpos : ¬ res.Re ≤ 0 := by
          intro hp
          rw [calculate_boundary_layer_height, if_pos hp] at h2
          exact absurd h2 (by simp)
        rw [← hRe] at hreg
        rw [calculate_boundary_layer_height, if_neg hpos] at h2
        by_cases hc : res.Re < 5e5
        · rw [if_pos hc] at h2 hreg
          injection h2 with h2'
          refine ⟨⟨fun _ => hc, fun _ => hreg⟩, ?_, fun _ => h2'.symm, ?_⟩
          · constructor
            · intro hh
              rw [hreg] at hh
              simp at hh
            · intro hh
              exact absurd hh (not_le.mpr hc)
          · intro hh
            exact absurd hh (not_le.mpr hc)
        · rw [if_neg hc] at h2 hreg
          injection h2 with h2'
          refine ⟨?_, ⟨fun _ => not_lt.mp hc, fun _ => hreg⟩, ?_, fun _ => h2'.symm⟩
          · constructor
            · intro hh
              rw [hreg] at hh
              simp at hh
            · intro hh
              exact absurd hh hc
          · intro hh
            exact absurd hh hc

/-- C10 witness: the all-ones orchestrator run resolves laminar and its
thickness equals the laminar boundary-layer formula at the recorded Re. -/
theorem orchestrator_regime_consistency_witness :
    (meshEx.estimation_details.regime = "laminar" ↔
      meshEx.estimation_details.Re < 5e5) ∧
    (meshEx.estimation_details.Re < 5e5 →
      meshEx.total_boundary_layer_thickness =
        4.91 * 1 / Real.sqrt meshEx.estimation_details.Re) := by
  have h := orchestrator_regime_consistency 1 1 1 1 1 2 meshEx calc_all_eval
  exact ⟨h.1, h.2.2.1⟩

end YPlus
